import Mathlib

/-!
Verification of the AI-powered state filing service (src/src/ai/state_filing_service.py).

The Python class `StateFilingService` is shallowly embedded: each method becomes a
pure Lean function.  External collaborators are modelled at their interface
boundary:

* A text returned by the text-generation collaborator is observed by the core only
  through `json.loads(text.strip())`, so a text is represented by its parse
  outcome `ParsedText := Option JsonVal`, where `none` models a
  `json.JSONDecodeError` and `some v` a successful parse to the JSON value `v`.
* Each fallible browser-driver primitive (goto, wait for load state, read content,
  fill, click, read text) is represented by an outcome supplied in an environment
  structure, and every issued browser call is recorded in an action trace.
* Python exceptions are values of `PyErr`; a method that can raise returns
  `Except PyErr _`; a caught exception disappears into the corresponding
  fallback branch, exactly as the `try ... except` blocks of the source do.
-/

namespace Nexora

/-- JSON values, as produced by the `json.loads` call of the Python source.
Objects keep the insertion order of their fields, matching Python dicts. -/
inductive JsonVal where
  | null
  | boolean (b : Bool)
  | num (n : Int)
  | str (s : String)
  | arr (elems : List JsonVal)
  | obj (fields : List (String × JsonVal))

/-- Python truthiness of a JSON value: the source tests values with
`if not x` and `if x`, so falsy values are None, False, 0, the empty string,
the empty list and the empty dict. -/
def JsonVal.truthy : JsonVal → Bool
  | .null => false
  | .boolean b => b
  | .num n => n != 0
  | .str s => s != ""
  | .arr elems => !elems.isEmpty
  | .obj fields => !fields.isEmpty

/-- Python `dict.get(k)`: first field with the given key, or `None` (absent). -/
def dictGet (fields : List (String × JsonVal)) (k : String) : Option JsonVal :=
  (fields.find? (fun p => p.1 == k)).map (fun p => p.2)

/-- Python truthiness of a `dict.get` result: `None` (absent key) is falsy,
a present value is tested with `JsonVal.truthy`. -/
def optTruthy : Option JsonVal → Bool
  | none => false
  | some v => v.truthy

/-- Python exceptions relevant to the embedded methods. -/
inductive PyErr where
  | valueError (msg : String)
  | attributeError (msg : String)
  | exn (msg : String)
  deriving DecidableEq

/-- Result of `json.loads(text.strip())` on a collaborator text: `none` models a
`json.JSONDecodeError`, `some v` a successful parse. -/
abbrev ParsedText := Option JsonVal

/-- Boolean test that an `Except` carries a success value. -/
def exceptOk {ε α : Type} : Except ε α → Bool
  | .ok _ => true
  | .error _ => false

/-- Browser-driver calls issued by the service, recorded in order.  Selector and
value arguments come from JSON objects, hence are `JsonVal`. -/
inductive BrowserAction where
  | goto (url : JsonVal)
  | waitLoad (state : String)
  | readContent
  | fillField (selector : JsonVal) (value : JsonVal)
  | click (selector : JsonVal)
  | readText (selector : String)
  | browserClose
  | playwrightStop

/-- Python substring test `needle in hay`, on the underlying character lists. -/
def strContainsAux (needle : List Char) : List Char → Bool
  | [] => List.isPrefixOf needle []
  | c :: rest => List.isPrefixOf needle (c :: rest) || strContainsAux needle rest

/-- Python `needle in hay` for strings (case sensitive, as in Python). -/
def strContains (hay needle : String) : Bool :=
  strContainsAux needle.data hay.data

/-- Python str.upper, written as a structural map over the character list so
that concrete instances evaluate by definitional reduction. -/
def pyUpper (s : String) : String := ⟨s.data.map Char.toUpper⟩

/-- Python str.lower, written as a structural map over the character list. -/
def pyLower (s : String) : String := ⟨s.data.map Char.toLower⟩

/-- The US_STATES table of the source: state code to display name, 50 entries. -/
def US_STATES : List (String × String) :=
  [("AL", "Alabama"), ("AK", "Alaska"), ("AZ", "Arizona"), ("AR", "Arkansas"),
   ("CA", "California"), ("CO", "Colorado"), ("CT", "Connecticut"), ("DE", "Delaware"),
   ("FL", "Florida"), ("GA", "Georgia"), ("HI", "Hawaii"), ("ID", "Idaho"),
   ("IL", "Illinois"), ("IN", "Indiana"), ("IA", "Iowa"), ("KS", "Kansas"),
   ("KY", "Kentucky"), ("LA", "Louisiana"), ("ME", "Maine"), ("MD", "Maryland"),
   ("MA", "Massachusetts"), ("MI", "Michigan"), ("MN", "Minnesota"), ("MS", "Mississippi"),
   ("MO", "Missouri"), ("MT", "Montana"), ("NE", "Nebraska"), ("NV", "Nevada"),
   ("NH", "New Hampshire"), ("NJ", "New Jersey"), ("NM", "New Mexico"), ("NY", "New York"),
   ("NC", "North Carolina"), ("ND", "North Dakota"), ("OH", "Ohio"), ("OK", "Oklahoma"),
   ("OR", "Oregon"), ("PA", "Pennsylvania"), ("RI", "Rhode Island"), ("SC", "South Carolina"),
   ("SD", "South Dakota"), ("TN", "Tennessee"), ("TX", "Texas"), ("UT", "Utah"),
   ("VT", "Vermont"), ("VA", "Virginia"), ("WA", "Washington"), ("WV", "West Virginia"),
   ("WI", "Wisconsin"), ("WY", "Wyoming")]

/-- State identity fixed by the constructor: uppercased code and display name. -/
structure InitState where
  state_code : String
  state_name : String
  deriving DecidableEq

/-- The constructor of `StateFilingService` (source lines 26 to 36): uppercase the
code, look it up in `US_STATES`, raise `ValueError` when absent.  The constructor
performs no network or browser call; its only effect is this validation. -/
def serviceInit (state_code : String) : Except PyErr InitState :=
  match US_STATES.find? (fun p => p.1 == pyUpper state_code) with
  | some p => .ok ⟨pyUpper state_code, p.2⟩
  | none => .error (.valueError ("Invalid state code: " ++ state_code ++
      ". Must be valid US state code."))

/-- The static method `is_state_supported`: membership of the uppercased code in
`US_STATES`. -/
def is_state_supported (state_code : String) : Bool :=
  (US_STATES.find? (fun p => p.1 == pyUpper state_code)).isSome

/-- The fallback configuration built by `_get_fallback_config` (source lines 291
to 301): online filing unavailable, base URL synthesized from the state code,
notes flagged for manual verification. -/
def get_fallback_config (st : InitState) : JsonVal :=
  .obj [
    ("name", .str st.state_name),
    ("base_url", .str ("https://sos." ++ pyLower st.state_code ++ ".gov/")),
    ("login_url", .null),
    ("llc_form_url", .null),
    ("online_filing_available", .boolean false),
    ("typical_requirements", .arr [.str "business_name", .str "registered_agent"]),
    ("notes", .str "Research failed - manual verification needed")]

/-- The method `research_state_filing_process` (source lines 67 to 101), given the
parse outcome of the collaborator text.  A `JSONDecodeError` is caught and the
fallback configuration returned.  A successful parse is returned unchanged after
a diagnostic print of `config.get(...)`; when the parsed value is not an object,
that `.get` raises `AttributeError`, which the method does not catch. -/
def research_state_filing_process (st : InitState) (research_result : ParsedText) :
    Except PyErr JsonVal :=
  match research_result with
  | none => .ok (get_fallback_config st)
  | some (.obj fields) => .ok (.obj fields)
  | some _ => .error (.attributeError "get")

/-- The generic selector table of `_get_generic_selectors` (source lines 303 to
314): eight semantic fields mapped to broad CSS selectors. -/
def get_generic_selectors : List (String × JsonVal) :=
  [("username", .str "input[type=\"text\"], input[type=\"email\"], input[name*=\"user\"], input[name*=\"email\"]"),
   ("password", .str "input[type=\"password\"]"),
   ("login_button", .str "button[type=\"submit\"], input[type=\"submit\"], button:contains(\"Login\")"),
   ("business_name", .str "input[name*=\"name\"], input[name*=\"entity\"]"),
   ("registered_agent_name", .str "input[name*=\"agent\"]"),
   ("registered_agent_address", .str "textarea[name*=\"address\"], input[name*=\"address\"]"),
   ("purpose", .str "textarea[name*=\"purpose\"]"),
   ("submit_button", .str "button[type=\"submit\"], input[type=\"submit\"]")]

/-- Outcomes of the external calls made by `discover_form_selectors`: the page
navigation, the load-state wait, the page-content read, and the model call
(whose successful outcome is the parse result of the returned text). -/
structure DiscoverEnv where
  goto_result : Except PyErr Unit
  wait_result : Except PyErr Unit
  content_result : Except PyErr String
  llm_result : Except PyErr ParsedText

/-- The method `discover_form_selectors` (source lines 103 to 153).  The outer
`try` covers navigation, the wait, the content read and the model call, so any
exception there yields the generic table.  The inner `try` catches only
`JSONDecodeError`; a parsed non-object makes the diagnostic
`selectors.values()` raise `AttributeError`, which the outer `except` also turns
into the generic table.  A parsed object is returned as discovered. -/
def discover_form_selectors (env : DiscoverEnv) : List (String × JsonVal) :=
  match env.goto_result, env.wait_result, env.content_result, env.llm_result with
  | .ok _, .ok _, .ok _, .ok parsed =>
      match parsed with
      | some (.obj fields) => fields
      | some _ => get_generic_selectors
      | none => get_generic_selectors
  | _, _, _, _ => get_generic_selectors

/-- Browser actions issued by `discover_form_selectors` before its first failure:
the navigation, then the load-state wait, then the content read. -/
def discoverActions (target_url : JsonVal) (env : DiscoverEnv) : List BrowserAction :=
  BrowserAction.goto target_url ::
    match env.goto_result with
    | .error _ => []
    | .ok _ =>
      BrowserAction.waitLoad "networkidle" ::
        match env.wait_result with
        | .error _ => []
        | .ok _ => [BrowserAction.readContent]

/-- Outcomes of the external calls made by `login` after selector discovery:
the two credential fills, the click, the settle wait, and the page URL read
after the page settles. -/
structure LoginEnv where
  discover_env : DiscoverEnv
  fill_username_result : Except PyErr Unit
  fill_password_result : Except PyErr Unit
  click_result : Except PyErr Unit
  settle_result : Except PyErr Unit
  page_url : String

/-- The method `login` (source lines 155 to 191).  Returns the stage outcome
(Python bool) and the trace of browser calls issued.  The guard clauses return
False before any browser call; the outer `try` converts any raised exception to
False with the calls issued so far. -/
def login (config : Option JsonVal) (username password : String) (env : LoginEnv) :
    Bool × List BrowserAction :=
  if optTruthy config = false then (false, [])
  else
    match config with
    | some (.obj fields) =>
      if optTruthy (dictGet fields "online_filing_available") = false then (false, [])
      else
        let login_url := dictGet fields "login_url"
        if optTruthy login_url = false then (false, [])
        else
          let selectors := discover_form_selectors env.discover_env
          let dActs := discoverActions (login_url.getD .null) env.discover_env
          if optTruthy (dictGet selectors "username") && optTruthy (dictGet selectors "password") then
            let selU := (dictGet selectors "username").getD .null
            let selP := (dictGet selectors "password").getD .null
            match env.fill_username_result with
            | .error _ => (false, dActs ++ [.fillField selU (.str username)])
            | .ok _ =>
              match env.fill_password_result with
              | .error _ => (false, dActs ++ [.fillField selU (.str username),
                  .fillField selP (.str password)])
              | .ok _ =>
                if optTruthy (dictGet selectors "login_button") then
                  let selB := (dictGet selectors "login_button").getD .null
                  match env.click_result with
                  | .error _ => (false, dActs ++ [.fillField selU (.str username),
                      .fillField selP (.str password), .click selB])
                  | .ok _ =>
                    match env.settle_result with
                    | .error _ => (false, dActs ++ [.fillField selU (.str username),
                        .fillField selP (.str password), .click selB, .waitLoad "networkidle"])
                    | .ok _ =>
                      let current_url := pyLower env.page_url
                      (!(strContains current_url "login" || strContains current_url "error"),
                       dActs ++ [.fillField selU (.str username),
                         .fillField selP (.str password), .click selB, .waitLoad "networkidle"])
                else (false, dActs ++ [.fillField selU (.str username),
                    .fillField selP (.str password)])
          else (false, dActs)
    | _ => (false, [])

/-- Outcomes of the external calls made by `navigate_to_llc_filing`. -/
structure NavEnv where
  goto_result : Except PyErr Unit
  settle_result : Except PyErr Unit

/-- The method `navigate_to_llc_filing` (source lines 193 to 209): read
`llc_form_url` from the configuration (None when the configuration is falsy),
return False without browser calls when it is falsy, otherwise navigate and
wait, converting any exception to False. -/
def navigate_to_llc_filing (config : Option JsonVal) (env : NavEnv) :
    Bool × List BrowserAction :=
  if optTruthy config = false then (false, [])
  else
    match config with
    | some (.obj fields) =>
      let llc_url := dictGet fields "llc_form_url"
      if optTruthy llc_url = false then (false, [])
      else
        let url := llc_url.getD .null
        match env.goto_result with
        | .error _ => (false, [.goto url])
        | .ok _ =>
          match env.settle_result with
          | .error _ => (false, [.goto url, .waitLoad "networkidle"])
          | .ok _ => (true, [.goto url, .waitLoad "networkidle"])
    | _ => (false, [])

/-- Outcomes of the external calls made by `fill_llc_formation`: the current page
URL, the discovery calls, and for each attempted `page.fill(selector, value)`
whether it succeeds. -/
structure FillEnv where
  current_url : String
  discover_env : DiscoverEnv
  page_fill_ok : JsonVal → JsonVal → Bool

/-- The field loop of `fill_llc_formation` (source lines 223 to 247): walk the
discovered selector items in order; skip falsy selectors and the three login
fields; for business_name, registered_agent_name and registered_agent_address
write the datum only when it is present and truthy; for purpose always write,
defaulting to the string "All lawful purposes" when the key is absent; count a
field only when the fill call succeeds (a per-field exception is caught). -/
def fill_loop (page_fill_ok : JsonVal → JsonVal → Bool)
    (business_data : List (String × JsonVal)) :
    List (String × JsonVal) → Nat × List BrowserAction
  | [] => (0, [])
  | (field_name, selector) :: rest =>
    let next := fill_loop page_fill_ok business_data rest
    if !selector.truthy ||
        (field_name == "username" || field_name == "password" || field_name == "login_button") then
      next
    else if field_name == "business_name" && optTruthy (dictGet business_data "business_name") then
      let v := (dictGet business_data "business_name").getD .null
      ((if page_fill_ok selector v then 1 else 0) + next.1, .fillField selector v :: next.2)
    else if field_name == "registered_agent_name" &&
        optTruthy (dictGet business_data "registered_agent_name") then
      let v := (dictGet business_data "registered_agent_name").getD .null
      ((if page_fill_ok selector v then 1 else 0) + next.1, .fillField selector v :: next.2)
    else if field_name == "registered_agent_address" &&
        optTruthy (dictGet business_data "registered_agent_address") then
      let v := (dictGet business_data "registered_agent_address").getD .null
      ((if page_fill_ok selector v then 1 else 0) + next.1, .fillField selector v :: next.2)
    else if field_name == "purpose" then
      let v := (dictGet business_data "purpose").getD (.str "All lawful purposes")
      ((if page_fill_ok selector v then 1 else 0) + next.1, .fillField selector v :: next.2)
    else next

/-- The method `fill_llc_formation` (source lines 211 to 254): discover selectors
on the current page, run the field loop, and succeed exactly when the count of
successfully written fields is positive.  Returns the stage outcome, the count
of written fields, and the trace of browser calls. -/
def fill_llc_formation (business_data : List (String × JsonVal)) (env : FillEnv) :
    Bool × Nat × List BrowserAction :=
  let selectors := discover_form_selectors env.discover_env
  let r := fill_loop env.page_fill_ok business_data selectors
  (decide (0 < r.1), r.1,
   discoverActions (.str env.current_url) env.discover_env ++ r.2)

/-- Modelled from the amended claim wording, for comparison with `fill_loop`:
the writes the fill stage performs, in discovery order.  A field with a falsy
selector is skipped; business_name, registered_agent_name and
registered_agent_address are written with exactly the datum from
BusinessFilingData and skipped when that datum is absent or falsy; purpose is
written whenever its selector is truthy, with the datum when the key is
present and the default string "All lawful purposes" otherwise; no other field
is written. -/
def expected_writes (business_data : List (String × JsonVal)) :
    List (String × JsonVal) → List (JsonVal × JsonVal)
  | [] => []
  | (field_name, selector) :: rest =>
    let tail := expected_writes business_data rest
    if selector.truthy = false then tail
    else if field_name == "business_name" || field_name == "registered_agent_name" ||
        field_name == "registered_agent_address" then
      match dictGet business_data field_name with
      | some v => if v.truthy then (selector, v) :: tail else tail
      | none => tail
    else if field_name == "purpose" then
      (selector, (dictGet business_data "purpose").getD (.str "All lawful purposes")) :: tail
    else tail

/-- Terminal result of the submit stage, the dict returned by `submit_form`:
keys absent from a branch of the source are `none`. -/
structure FilingOutcome where
  success : Bool
  state : String
  confirmation : Option String
  url : Option String
  error : Option String
  deriving DecidableEq

/-- Outcomes of the external calls made by `submit_form`. -/
structure SubmitEnv where
  current_url : String
  discover_env : DiscoverEnv
  click_result : Except PyErr Unit
  settle_result : Except PyErr Unit
  body_text : Option String
  final_url : String

/-- Message carried by a Python exception, as `str(e)` renders it. -/
def PyErr.msg : PyErr → String
  | .valueError m => m
  | .attributeError m => m
  | .exn m => m

/-- The method `submit_form` (source lines 256 to 281): discover selectors on the
current page; when the submit_button selector is falsy, return the failure dict
with error "No submit button found" and no click; otherwise click, wait, read
the page body and return the success dict with the confirmation text truncated
to 500 characters.  Any exception becomes the failure dict with `str(e)`. -/
def submit_form (st : InitState) (env : SubmitEnv) : FilingOutcome × List BrowserAction :=
  let selectors := discover_form_selectors env.discover_env
  let dActs := discoverActions (.str env.current_url) env.discover_env
  let submit_selector := dictGet selectors "submit_button"
  if optTruthy submit_selector = false then
    (⟨false, st.state_name, none, none, some "No submit button found"⟩, dActs)
  else
    let sel := submit_selector.getD .null
    match env.click_result with
    | .error e => (⟨false, st.state_name, none, none, some e.msg⟩, dActs ++ [.click sel])
    | .ok _ =>
      match env.settle_result with
      | .error e => (⟨false, st.state_name, none, none, some e.msg⟩,
          dActs ++ [.click sel, .waitLoad "networkidle"])
      | .ok _ =>
        (⟨true, st.state_name, some ((env.body_text.getD "").take 500),
          some env.final_url, none⟩,
         dActs ++ [.click sel, .waitLoad "networkidle", .readText "body"])

/-- The method `__aexit__` (source lines 59 to 65): close the browser when the
handle is set, inside a `try` whose `finally` stops the driver when that handle
is set.  Returns the shutdown calls issued, in order, and the exception that
propagates out of the method (a raise from the driver stop replaces a raise
from the browser close, as Python finally semantics dictate).  The exception
information of the ending session (`exc_info`, covering normal completion, a
stage Failure already returned, or an unhandled exception) is received and
ignored, exactly as the source ignores exc_type, exc_val and exc_tb. -/
def aexit (_exc_info : Option PyErr)
    (has_browser has_playwright close_raises stop_raises : Bool) :
    List BrowserAction × Option PyErr :=
  let close_acts : List BrowserAction := if has_browser then [.browserClose] else []
  let close_err : Option PyErr :=
    if has_browser && close_raises then some (.exn "browser close failed") else none
  let stop_acts : List BrowserAction := if has_playwright then [.playwrightStop] else []
  let stop_err : Option PyErr :=
    if has_playwright && stop_raises then some (.exn "driver stop failed") else none
  (close_acts ++ stop_acts,
   match stop_err with
   | some e => some e
   | none => close_err)

/-- Fill environment of the partial-success scenario: discovery maps only
business_name to a selector, and every fill call succeeds. -/
def fill_env_single : FillEnv :=
  ⟨"https://sos.tx.gov/form",
   ⟨.ok (), .ok (), .ok "<html>",
    .ok (some (.obj [("business_name", .str "#businessName")]))⟩,
   fun _ _ => true⟩

/-- Fill environment of the total-failure scenario: discovery returns every
semantic field with a null selector (all relevant selectors absent). -/
def fill_env_absent : FillEnv :=
  ⟨"https://sos.tx.gov/form",
   ⟨.ok (), .ok (), .ok "<html>",
    .ok (some (.obj [("username", .null), ("password", .null), ("login_button", .null),
                     ("business_name", .null), ("registered_agent_name", .null),
                     ("registered_agent_address", .null), ("purpose", .null),
                     ("submit_button", .null)]))⟩,
   fun _ _ => true⟩

/-- Fill environment of the purpose-default scenario: discovery maps only
purpose to a selector, and every fill call succeeds. -/
def fill_env_purpose : FillEnv :=
  ⟨"https://sos.ca.gov/form",
   ⟨.ok (), .ok (), .ok "<html>",
    .ok (some (.obj [("purpose", .str "#purpose")]))⟩,
   fun _ _ => true⟩

/-- C9: the registry and the constructor agree on membership — `is_state_supported`
(case-insensitive membership in US_STATES) is true exactly when construction
succeeds; a successful construction carries the display name recorded in
US_STATES for the uppercased code; and the unsupported code "ZZ" makes the
constructor raise ValueError before any browser or network call (the
constructor issues none by source lines 26 to 36). -/
theorem C9_registry_agreement :
    (∀ code : String, exceptOk (serviceInit code) = is_state_supported code) ∧
    (∀ code : String, ∀ st : InitState, serviceInit code = .ok st →
      US_STATES.find? (fun p => p.1 == pyUpper code) = some (st.state_code, st.state_name)) ∧
    serviceInit "ZZ" = .error (.valueError "Invalid state code: ZZ. Must be valid US state code.") := by
  refine ⟨?_, ?_, ?_⟩
  · intro code
    unfold serviceInit is_state_supported
    cases h : US_STATES.find? (fun p => p.1 == pyUpper code) <;> simp [exceptOk]
  · intro code st h
    unfold serviceInit at h
    cases hf : US_STATES.find? (fun p => p.1 == pyUpper code) with
    | none => rw [hf] at h; exact absurd h (by simp)
    | some p =>
      rw [hf] at h
      have hp := List.find?_some hf
      have hpe : p.1 = pyUpper code := by simpa using hp
      simp only [Except.ok.injEq] at h
      subst h
      simp [← hpe]
  · rfl

/-- C9 witness: the supported code "TX" constructs successfully with display name
Texas, agreeing with the registry. -/
theorem C9_registry_agreement_witness :
    exceptOk (serviceInit "TX") = is_state_supported "TX" ∧
    US_STATES.find? (fun p => p.1 == pyUpper "TX") = some ("TX", "Texas") :=
  ⟨C9_registry_agreement.1 "TX", C9_registry_agreement.2.1 "TX" ⟨"TX", "Texas"⟩ rfl⟩

/-- C1 counterexample: the collaborator text parsing to the JSON object with the
single field x (valid JSON, missing the mandatory name field) is returned
unchanged by research, not replaced by the fallback configuration — its
online_filing_available key is absent instead of false. -/
theorem C1_counterexample :
    research_state_filing_process ⟨"TX", "Texas"⟩ (some (.obj [("x", .num 1)])) =
      .ok (.obj [("x", .num 1)]) ∧
    dictGet [("x", .num 1)] "online_filing_available" = none :=
  ⟨rfl, rfl⟩

/-- C1 amended: research returns the fallback configuration — with
online_filing_available false, base URL synthesized from the state code, and
notes flagged as research failed — exactly when the collaborator text is
malformed JSON, and never raises in that case; a text parsing to a JSON object
is returned unchanged even when the mandatory name field is missing. -/
theorem C1_research_fallback (st : InitState) :
    research_state_filing_process st none = .ok (get_fallback_config st) ∧
    (∀ fields, research_state_filing_process st (some (.obj fields)) = .ok (.obj fields)) ∧
    get_fallback_config st = .obj [
      ("name", .str st.state_name),
      ("base_url", .str ("https://sos." ++ pyLower st.state_code ++ ".gov/")),
      ("login_url", .null),
      ("llc_form_url", .null),
      ("online_filing_available", .boolean false),
      ("typical_requirements", .arr [.str "business_name", .str "registered_agent"]),
      ("notes", .str "Research failed - manual verification needed")] :=
  ⟨rfl, fun _ => rfl, rfl⟩

/-- C2: when the collaborator text during selector discovery is not parseable as
JSON (and the page interactions themselves succeeded), the discovered map is the
generic fallback table exactly, whose keys are the eight semantic fields. -/
theorem C2_discovery_fallback (env : DiscoverEnv) (s : String)
    (h1 : env.goto_result = .ok ()) (h2 : env.wait_result = .ok ())
    (h3 : env.content_result = .ok s) (h4 : env.llm_result = .ok none) :
    discover_form_selectors env = get_generic_selectors ∧
    get_generic_selectors.map (fun p => p.1) =
      ["username", "password", "login_button", "business_name",
       "registered_agent_name", "registered_agent_address", "purpose", "submit_button"] := by
  constructor
  · unfold discover_form_selectors
    rw [h1, h2, h3, h4]
  · rfl

/-- C2 witness: a concrete environment whose model reply is unparseable yields
exactly the generic table. -/
theorem C2_discovery_fallback_witness :
    discover_form_selectors ⟨.ok (), .ok (), .ok "<html>", .ok none⟩ = get_generic_selectors ∧
    get_generic_selectors.map (fun p => p.1) =
      ["username", "password", "login_button", "business_name",
       "registered_agent_name", "registered_agent_address", "purpose", "submit_button"] :=
  C2_discovery_fallback ⟨.ok (), .ok (), .ok "<html>", .ok none⟩ "<html>" rfl rfl rfl rfl

/-- C10: selector discovery is total over all failure modes — if the page
navigation, the load-state wait, the content read, or the model call itself
fails with an exception, the generic selector table is returned rather than the
exception propagating. -/
theorem C10_discovery_total (env : DiscoverEnv)
    (h : exceptOk env.goto_result = false ∨ exceptOk env.wait_result = false ∨
         exceptOk env.content_result = false ∨ exceptOk env.llm_result = false) :
    discover_form_selectors env = get_generic_selectors := by
  obtain ⟨g, w, c, l⟩ := env
  cases g <;> cases w <;> cases c <;> cases l <;>
    simp_all [discover_form_selectors, exceptOk]

/-- C10 witness: a navigation timeout alone already yields the generic table. -/
theorem C10_discovery_total_witness :
    discover_form_selectors ⟨.error (.exn "timeout"), .ok (), .ok "", .ok none⟩ =
      get_generic_selectors :=
  C10_discovery_total ⟨.error (.exn "timeout"), .ok (), .ok "", .ok none⟩ (Or.inl rfl)

/-- C6: for every way the session ends (any exception information passed to
session exit) and whether or not the browser shutdown raises, session exit
issues the browser shutdown and then the driver shutdown, in that order — in
particular the driver shutdown attempt still runs when the browser shutdown
raises, by the finally block of the source. -/
theorem C6_session_teardown (exc_info : Option PyErr) (close_raises stop_raises : Bool) :
    (aexit exc_info true true close_raises stop_raises).1 =
      [BrowserAction.browserClose, BrowserAction.playwrightStop] := by
  cases close_raises <;> cases stop_raises <;> rfl

/-- C4 counterexample: a configuration with online_filing_available false but a
truthy llc_form_url (a shape the research collaborator can produce) makes the
navigate stage issue browser actions — a navigation and a load wait — and
return Success, instead of short-circuiting to Failure without browser actions. -/
theorem C4_counterexample :
    dictGet [("online_filing_available", .boolean false),
             ("llc_form_url", .str "https://sos.tx.gov/llc")] "online_filing_available" =
      some (.boolean false) ∧
    navigate_to_llc_filing
      (some (.obj [("online_filing_available", .boolean false),
                   ("llc_form_url", .str "https://sos.tx.gov/llc")]))
      ⟨.ok (), .ok ()⟩ =
      (true, [.goto (.str "https://sos.tx.gov/llc"), .waitLoad "networkidle"]) :=
  ⟨rfl, rfl⟩

/-- C4 amended: the login stage short-circuits to Failure with no browser action
whenever online_filing_available is falsy in the configuration; the navigate
stage short-circuits to Failure with no browser action exactly when
llc_form_url is falsy or absent — it does not consult online_filing_available
(under the fallback configuration llc_form_url is null, so navigate then
short-circuits as well). -/
theorem C4_short_circuit :
    (∀ fields username password env,
      optTruthy (dictGet fields "online_filing_available") = false →
      login (some (.obj fields)) username password env = (false, [])) ∧
    (∀ fields env,
      optTruthy (dictGet fields "llc_form_url") = false →
      navigate_to_llc_filing (some (.obj fields)) env = (false, [])) := by
  constructor
  · intro fields username password env hflag
    simp [login, hflag]
  · intro fields env hllc
    simp [navigate_to_llc_filing, hllc]

/-- C4 witness: with the flag false the login stage returns Failure and an empty
trace, and a configuration without llc_form_url makes navigate do the same. -/
theorem C4_short_circuit_witness :
    login (some (.obj [("online_filing_available", .boolean false)])) "user" "pass"
      ⟨⟨.ok (), .ok (), .ok "", .ok none⟩, .ok (), .ok (), .ok (), .ok (), ""⟩ = (false, []) ∧
    navigate_to_llc_filing (some (.obj [("name", .str "Texas")])) ⟨.ok (), .ok ()⟩ =
      (false, []) :=
  ⟨C4_short_circuit.1 [("online_filing_available", .boolean false)] "user" "pass"
      ⟨⟨.ok (), .ok (), .ok "", .ok none⟩, .ok (), .ok (), .ok (), .ok (), ""⟩ rfl,
   C4_short_circuit.2 [("name", .str "Texas")] ⟨.ok (), .ok ()⟩ rfl⟩

/-- C8 counterexample: after filling the credentials and clicking the login
button the page settles on a URL containing ERROR in capitals; the URL contains
neither login nor error as a (case sensitive) substring, yet the login stage
returns Failure, because the source lowercases the URL before the check. -/
theorem C8_counterexample :
    (login
      (some (.obj [("online_filing_available", .boolean true),
                   ("login_url", .str "https://sos.tx.gov/signin")]))
      "user" "pass"
      ⟨⟨.ok (), .ok (), .ok "<html>",
        .ok (some (.obj [("username", .str "#user"), ("password", .str "#pass"),
                         ("login_button", .str "#go")]))⟩,
       .ok (), .ok (), .ok (), .ok (), "https://sos.tx.gov/ERROR"⟩).1 = false ∧
    strContains "https://sos.tx.gov/ERROR" "login" = false ∧
    strContains "https://sos.tx.gov/ERROR" "error" = false :=
  ⟨rfl, rfl, rfl⟩

/-- C8 amended: once the login stage has filled both credentials and clicked the
login button and the page settled, it returns Success exactly when the
lowercased resulting page URL contains neither login nor error as a substring
(the check is case insensitive). -/
theorem C8_login_url_check (fields : List (String × JsonVal))
    (username password : String) (env : LoginEnv)
    (hflag : optTruthy (dictGet fields "online_filing_available") = true)
    (hurl : optTruthy (dictGet fields "login_url") = true)
    (hu : optTruthy (dictGet (discover_form_selectors env.discover_env) "username") = true)
    (hpw : optTruthy (dictGet (discover_form_selectors env.discover_env) "password") = true)
    (hfu : env.fill_username_result = .ok ())
    (hfp : env.fill_password_result = .ok ())
    (hb : optTruthy (dictGet (discover_form_selectors env.discover_env) "login_button") = true)
    (hc : env.click_result = .ok ())
    (hs : env.settle_result = .ok ()) :
    (login (some (.obj fields)) username password env).1 =
      (!(strContains (pyLower env.page_url) "login" ||
         strContains (pyLower env.page_url) "error")) := by
  have hne : fields ≠ [] := by
    intro hnil
    rw [hnil] at hflag
    simp [dictGet, optTruthy] at hflag
  have houter : optTruthy (some (.obj fields)) = true := by
    simp [optTruthy, JsonVal.truthy, hne]
  simp [login, houter, hflag, hurl, hu, hpw, hfu, hfp, hb, hc, hs]

/-- C8 witness: a settled URL without the two substrings yields Success. -/
theorem C8_login_url_check_witness :
    (login
      (some (.obj [("online_filing_available", .boolean true),
                   ("login_url", .str "https://sos.tx.gov/signin")]))
      "user" "pass"
      ⟨⟨.ok (), .ok (), .ok "<html>",
        .ok (some (.obj [("username", .str "#user"), ("password", .str "#pass"),
                         ("login_button", .str "#go")]))⟩,
       .ok (), .ok (), .ok (), .ok (), "https://sos.tx.gov/dashboard"⟩).1 =
      (!(strContains (pyLower "https://sos.tx.gov/dashboard") "login" ||
         strContains (pyLower "https://sos.tx.gov/dashboard") "error")) :=
  C8_login_url_check
    [("online_filing_available", .boolean true),
     ("login_url", .str "https://sos.tx.gov/signin")]
    "user" "pass"
    ⟨⟨.ok (), .ok (), .ok "<html>",
      .ok (some (.obj [("username", .str "#user"), ("password", .str "#pass"),
                       ("login_button", .str "#go")]))⟩,
     .ok (), .ok (), .ok (), .ok (), "https://sos.tx.gov/dashboard"⟩
    rfl rfl rfl rfl rfl rfl rfl rfl rfl

/-- C3: the fill stage returns Success exactly when at least one field was
successfully written; with data holding only business_name and a selector map
exposing only a business_name selector it succeeds writing exactly one field,
and with every relevant selector absent it returns Failure. -/
theorem C3_fill_partial_success :
    (∀ business_data env,
      (fill_llc_formation business_data env).1 =
        decide (0 < (fill_llc_formation business_data env).2.1)) ∧
    (fill_llc_formation [("business_name", .str "Acme LLC")] fill_env_single).1 = true ∧
    (fill_llc_formation [("business_name", .str "Acme LLC")] fill_env_single).2.1 = 1 ∧
    (fill_llc_formation [("business_name", .str "Acme LLC")] fill_env_absent).1 = false ∧
    (fill_llc_formation [("business_name", .str "Acme LLC")] fill_env_absent).2.1 = 0 :=
  ⟨fun _ _ => rfl, rfl, rfl, rfl, rfl⟩

/-- Browser actions issued by selector discovery never include a click. -/
theorem click_not_in_discoverActions (sel url : JsonVal) (denv : DiscoverEnv) :
    BrowserAction.click sel ∉ discoverActions url denv := by
  obtain ⟨g, w, c, l⟩ := denv
  cases g <;> cases w <;> simp [discoverActions]

/-- C7 counterexample: when discovery lacks a submit_button selector the submit
stage returns success false with the error message "No submit button found" —
capitalized, hence not equal to the claimed message "no submit button found". -/
theorem C7_counterexample :
    (submit_form ⟨"TX", "Texas"⟩
      ⟨"https://sos.tx.gov/form",
       ⟨.ok (), .ok (), .ok "<html>", .ok (some (.obj []))⟩,
       .ok (), .ok (), some "done", "https://sos.tx.gov/done"⟩).1 =
      ⟨false, "Texas", none, none, some "No submit button found"⟩ ∧
    ("No submit button found" : String) ≠ "no submit button found" :=
  ⟨rfl, by decide⟩

/-- C7 amended: when the discovered SelectorMap lacks a truthy submit_button
selector, the submit stage returns a FilingOutcome with success false and error
message "No submit button found" (capitalized as in the source), and clicks
nothing. -/
theorem C7_no_submit_button (st : InitState) (env : SubmitEnv)
    (h : optTruthy (dictGet (discover_form_selectors env.discover_env) "submit_button") = false) :
    (submit_form st env).1 =
      ⟨false, st.state_name, none, none, some "No submit button found"⟩ ∧
    ∀ sel, BrowserAction.click sel ∉ (submit_form st env).2 := by
  constructor
  · simp [submit_form, h]
  · intro sel
    have htr : (submit_form st env).2 =
        discoverActions (.str env.current_url) env.discover_env := by
      simp [submit_form, h]
    rw [htr]
    exact click_not_in_discoverActions sel (.str env.current_url) env.discover_env

/-- C7 witness: a concrete submit environment without a submit button returns
the capitalized failure outcome. -/
theorem C7_no_submit_button_witness :
    (submit_form ⟨"CA", "California"⟩
      ⟨"https://sos.ca.gov/form",
       ⟨.ok (), .ok (), .ok "<html>", .ok (some (.obj [("purpose", .str "#p")]))⟩,
       .ok (), .ok (), some "done", "https://sos.ca.gov/done"⟩).1 =
      ⟨false, "California", none, none, some "No submit button found"⟩ :=
  (C7_no_submit_button ⟨"CA", "California"⟩
    ⟨"https://sos.ca.gov/form",
     ⟨.ok (), .ok (), .ok "<html>", .ok (some (.obj [("purpose", .str "#p")]))⟩,
     .ok (), .ok (), some "done", "https://sos.ca.gov/done"⟩ rfl).1

/-- C5 counterexample: with a BusinessFilingData holding no purpose (the empty
data) and a discovered selector for purpose, the fill stage is not skipped — it
writes the default string "All lawful purposes", a value taken from nowhere in
BusinessFilingData (whose purpose key is absent). -/
theorem C5_counterexample :
    (fill_llc_formation [] fill_env_purpose).2.2 =
      [.goto (.str "https://sos.ca.gov/form"), .waitLoad "networkidle", .readContent,
       .fillField (.str "#purpose") (.str "All lawful purposes")] ∧
    (fill_llc_formation [] fill_env_purpose).2.1 = 1 ∧
    dictGet [] "purpose" = none :=
  ⟨rfl, rfl, rfl⟩

/-- C5 amended: the fill stage attempts exactly the writes of `expected_writes`,
in discovery order — business_name, registered_agent_name and
registered_agent_address are written with exactly the corresponding value from
BusinessFilingData and skipped when selector or datum is absent or falsy, while
purpose is written whenever its selector is present, falling back to the
default "All lawful purposes" when the data lacks a purpose key — and the count
of written fields is the number of those writes whose fill call succeeds. -/
theorem C5_fill_field_values (business_data : List (String × JsonVal)) (env : FillEnv) :
    (fill_llc_formation business_data env).2.2 =
      discoverActions (.str env.current_url) env.discover_env ++
        (expected_writes business_data (discover_form_selectors env.discover_env)).map
          (fun pr => BrowserAction.fillField pr.1 pr.2) ∧
    (fill_llc_formation business_data env).2.1 =
      (expected_writes business_data (discover_form_selectors env.discover_env)).countP
        (fun pr => env.page_fill_ok pr.1 pr.2) := by
  have key : ∀ (pf : JsonVal → JsonVal → Bool) (sels : List (String × JsonVal)),
      fill_loop pf business_data sels =
        ((expected_writes business_data sels).countP (fun pr => pf pr.1 pr.2),
         (expected_writes business_data sels).map
           (fun pr => BrowserAction.fillField pr.1 pr.2)) := by
    intro pf sels
    induction sels with
    | nil => rfl
    | cons hd tl ih =>
      obtain ⟨f, s⟩ := hd
      by_cases hs : s.truthy
      · by_cases h1 : f = "business_name"
        · subst h1
          cases hd1 : dictGet business_data "business_name" with
          | none => simp [fill_loop, expected_writes, hs, hd1, ih, optTruthy]
          | some v =>
            by_cases hv : v.truthy
            · cases hpf : pf s v <;>
                simp [fill_loop, expected_writes, hs, hd1, hv, hpf, ih, optTruthy,
                  List.countP_cons, Nat.add_comm]
            · simp [fill_loop, expected_writes, hs, hd1, hv, ih, optTruthy]
        · by_cases h2 : f = "registered_agent_name"
          · subst h2
            cases hd2 : dictGet business_data "registered_agent_name" with
            | none => simp [fill_loop, expected_writes, hs, hd2, ih, optTruthy]
            | some v =>
              by_cases hv : v.truthy
              · cases hpf : pf s v <;>
                  simp [fill_loop, expected_writes, hs, hd2, hv, hpf, ih, optTruthy,
                    List.countP_cons, Nat.add_comm]
              · simp [fill_loop, expected_writes, hs, hd2, hv, ih, optTruthy]
          · by_cases h3 : f = "registered_agent_address"
            · subst h3
              cases hd3 : dictGet business_data "registered_agent_address" with
              | none => simp [fill_loop, expected_writes, hs, hd3, ih, optTruthy]
              | some v =>
                by_cases hv : v.truthy
                · cases hpf : pf s v <;>
                    simp [fill_loop, expected_writes, hs, hd3, hv, hpf, ih, optTruthy,
                      List.countP_cons, Nat.add_comm]
                · simp [fill_loop, expected_writes, hs, hd3, hv, ih, optTruthy]
            · by_cases h4 : f = "purpose"
              · subst h4
                cases hpf : pf s ((dictGet business_data "purpose").getD
                    (.str "All lawful purposes")) <;>
                  simp [fill_loop, expected_writes, hs, hpf, ih,
                    List.countP_cons, Nat.add_comm]
              · simp [fill_loop, expected_writes, hs, h1, h2, h3, h4, ih]
      · simp [fill_loop, expected_writes, hs, ih]
  constructor
  · show (fill_llc_formation business_data env).2.2 = _
    simp [fill_llc_formation, key]
  · show (fill_llc_formation business_data env).2.1 = _
    simp [fill_llc_formation, key]

end Nexora
